import Mathlib

/-!
Verification of the storage-client wrapper in
src/mira_py_devkit/cloud_storager/aws_s3.py.

The module wraps an S3-compatible SDK.  We embed it shallowly:

* the client object `AmazonS3` is a record of the fields assigned in
  `__init__` (the two credential strings and the optional endpoint URL);
* the external world (the boto3 `upload_file` / `put_object` calls and the
  `requests.get` fetch) is modelled by explicit outcome parameters of type
  `Except String _`, passed to each operation before its ordinary arguments;
* each operation returns the (unchanged) client state, the list of SDK calls
  it issued (with the exact arguments forwarded), and an `Except` result
  mirroring the Python return value or raised exception.
-/

/-- An HTTP response as observed through the requests library: a numeric
status code and the response body as a byte sequence. -/
structure HttpResponse where
  status : Nat
  content : List Nat
deriving DecidableEq, Repr

/-- The exceptions the module can surface: the ValueError raised by the ACL
check, the TypeError raised by Python when a required constructor argument
is omitted, an error propagated from a boto3 SDK call, a network error from
requests.get, and the HTTPError raised by Response.raise_for_status. -/
inductive S3Error where
  | valueError (msg : String)
  | typeError (msg : String)
  | sdkError (msg : String)
  | fetchError (msg : String)
  | httpError (status : Nat)
deriving DecidableEq, Repr

/-- A record of one call issued to the underlying storage SDK, with the
arguments exactly as forwarded by the wrapper. -/
inductive SdkCall where
  | uploadFile (file_path bucket_name object_name acl : String)
  | putObject (bucket_name object_name : String) (body : List Nat) (acl : String)
deriving DecidableEq, Repr

/-- The state of an AmazonS3 client: the fields assigned in `__init__`.
The boto3 raw client is determined by these same three values and carries
no further observable state of its own, so it is not duplicated here. -/
structure AmazonS3 where
  aws_access_key_id : String
  aws_secret_access_key : String
  endpoint_url : Option String
deriving DecidableEq, Repr

/-- The fixed list of canned ACL values, from AmazonS3.VALID_ACL. -/
def AmazonS3.VALID_ACL : List String :=
  ["private",
   "public-read",
   "public-read-write",
   "authenticated-read",
   "aws-exec-read",
   "bucket-owner-read",
   "bucket-owner-full-control",
   "log-delivery-write"]

/-- AmazonS3.__init__: stores the credentials and endpoint.  The endpoint
parameter defaults to none, as in the Python signature. -/
def AmazonS3.init (aws_access_key_id aws_secret_access_key : String)
    (endpoint_url : Option String := none) : AmazonS3 :=
  ⟨aws_access_key_id, aws_secret_access_key, endpoint_url⟩

/-- Python call binding for AmazonS3.__init__: the endpoint argument is
optional, so a call that omits it (outer none) succeeds using the default
value none; construction itself never raises. -/
def AmazonS3.construct (aws_access_key_id aws_secret_access_key : String)
    (endpoint_arg : Option (Option String)) : Except S3Error AmazonS3 :=
  Except.ok (AmazonS3.init aws_access_key_id aws_secret_access_key (endpoint_arg.getD none))

/-- AmazonS3._check_acl: raises ValueError when acl is truthy (non-empty)
and not a member of VALID_ACL; otherwise does nothing.  Returns the client
state unchanged together with the outcome. -/
def AmazonS3._check_acl (self : AmazonS3) (acl : String) : AmazonS3 × Except S3Error Unit :=
  (self,
    if acl ≠ "" ∧ acl ∉ AmazonS3.VALID_ACL then
      Except.error (S3Error.valueError
        ("Invalid ACL: " ++ acl ++
         ". Please check the https://docs.aws.amazon.com/AmazonS3/latest/userguide/acl-overview.html#canned-acl for valid ACLs."))
    else
      Except.ok ())

/-- AmazonS3.upload_from_local_file.  The outcome of the boto3 upload_file
transfer is the explicit parameter upload_file_result.  The method issues
exactly one SDK call (upload_file with the arguments forwarded verbatim),
propagates a transfer failure unchanged, and on success returns the public
URL built from bucket_domain (if non-empty, by Python truthiness) or from
bucket_name. -/
def AmazonS3.upload_from_local_file (self : AmazonS3)
    (upload_file_result : Except String Unit)
    (file_path bucket_name object_name : String)
    (acl : String := "public-read") (bucket_domain : String := "") :
    AmazonS3 × List SdkCall × Except S3Error String :=
  (self,
    [SdkCall.uploadFile file_path bucket_name object_name acl],
    match upload_file_result with
    | Except.error e => Except.error (S3Error.sdkError e)
    | Except.ok _ =>
        Except.ok (if bucket_domain ≠ "" then
            "https://" ++ bucket_domain ++ "/" ++ object_name
          else
            "https://" ++ bucket_name ++ ".s3.amazonaws.com/" ++ object_name))

/-- requests.get: either a network-level failure (carried unchanged as a
fetchError) or a response object. -/
def requests_get (get_result : Except String HttpResponse) : Except S3Error HttpResponse :=
  match get_result with
  | Except.error e => Except.error (S3Error.fetchError e)
  | Except.ok r => Except.ok r

/-- Response.raise_for_status from the requests library: raises HTTPError
exactly when the status code is a 4xx client error or 5xx server error. -/
def HttpResponse.raise_for_status (r : HttpResponse) : Except S3Error Unit :=
  if 400 ≤ r.status ∧ r.status < 600 then
    Except.error (S3Error.httpError r.status)
  else
    Except.ok ()

/-- AmazonS3.upload_from_url.  The outcome of requests.get is the explicit
parameter get_result and the outcome of the boto3 put_object call is
put_object_result.  The method fetches the URL, calls raise_for_status, and
only then issues the put_object call with the response body forwarded
verbatim; the public URL is built exactly as in upload_from_local_file. -/
def AmazonS3.upload_from_url (self : AmazonS3)
    (get_result : Except String HttpResponse)
    (put_object_result : Except String Unit)
    (url bucket_name object_name : String)
    (acl : String := "public-read") (bucket_domain : String := "") :
    AmazonS3 × List SdkCall × Except S3Error String :=
  (self,
    match requests_get get_result with
    | Except.error e => ([], Except.error e)
    | Except.ok response =>
      match response.raise_for_status with
      | Except.error e => ([], Except.error e)
      | Except.ok _ =>
        ([SdkCall.putObject bucket_name object_name response.content acl],
          match put_object_result with
          | Except.error e => Except.error (S3Error.sdkError e)
          | Except.ok _ =>
            Except.ok (if bucket_domain ≠ "" then
                "https://" ++ bucket_domain ++ "/" ++ object_name
              else
                "https://" ++ bucket_name ++ ".s3.amazonaws.com/" ++ object_name)))

/-- The state of a CloudflareR2 client: the subclass adds no field of its
own, it only forwards to the AmazonS3 constructor. -/
structure CloudflareR2 where
  toAmazonS3 : AmazonS3
deriving DecidableEq, Repr

/-- CloudflareR2.__init__: calls the superclass constructor with the given
endpoint (here the parameter is a plain String, it has no default). -/
def CloudflareR2.init (aws_access_key_id aws_secret_access_key endpoint_url : String) :
    CloudflareR2 :=
  ⟨AmazonS3.init aws_access_key_id aws_secret_access_key (some endpoint_url)⟩

/-- Python call binding for CloudflareR2.__init__: endpoint_url has no
default value, so a call that omits it (none) raises TypeError before the
body runs. -/
def CloudflareR2.construct (aws_access_key_id aws_secret_access_key : String)
    (endpoint_arg : Option String) : Except S3Error CloudflareR2 :=
  match endpoint_arg with
  | none => Except.error (S3Error.typeError
      "CloudflareR2.__init__ missing 1 required positional argument: endpoint_url")
  | some e => Except.ok (CloudflareR2.init aws_access_key_id aws_secret_access_key e)

/-- The _check_acl method CloudflareR2 inherits unchanged from AmazonS3. -/
def CloudflareR2._check_acl (self : CloudflareR2) (acl : String) :
    CloudflareR2 × Except S3Error Unit :=
  (⟨(AmazonS3._check_acl self.toAmazonS3 acl).1⟩, (AmazonS3._check_acl self.toAmazonS3 acl).2)

/-- The upload_from_local_file method CloudflareR2 inherits unchanged from
AmazonS3. -/
def CloudflareR2.upload_from_local_file (self : CloudflareR2)
    (upload_file_result : Except String Unit)
    (file_path bucket_name object_name : String)
    (acl : String := "public-read") (bucket_domain : String := "") :
    CloudflareR2 × List SdkCall × Except S3Error String :=
  (⟨(AmazonS3.upload_from_local_file self.toAmazonS3 upload_file_result
      file_path bucket_name object_name acl bucket_domain).1⟩,
    (AmazonS3.upload_from_local_file self.toAmazonS3 upload_file_result
      file_path bucket_name object_name acl bucket_domain).2)

/-- The upload_from_url method CloudflareR2 inherits unchanged from
AmazonS3. -/
def CloudflareR2.upload_from_url (self : CloudflareR2)
    (get_result : Except String HttpResponse)
    (put_object_result : Except String Unit)
    (url bucket_name object_name : String)
    (acl : String := "public-read") (bucket_domain : String := "") :
    CloudflareR2 × List SdkCall × Except S3Error String :=
  (⟨(AmazonS3.upload_from_url self.toAmazonS3 get_result put_object_result
      url bucket_name object_name acl bucket_domain).1⟩,
    (AmazonS3.upload_from_url self.toAmazonS3 get_result put_object_result
      url bucket_name object_name acl bucket_domain).2)

/-- C1: whenever upload_from_local_file or upload_from_url returns a URL
string (the underlying transfer having succeeded), that string is exactly
https bucket_domain slash object_name when bucket_domain is non-empty
(regardless of bucket_name), and exactly
https bucket_name dot s3.amazonaws.com slash object_name when bucket_domain
is empty. -/
theorem c1_public_url_shape (self : AmazonS3) (u : Except String Unit)
    (g : Except String HttpResponse) (p : Except String Unit)
    (file_path url bucket_name object_name acl bucket_domain s : String)
    (h : (AmazonS3.upload_from_local_file self u file_path bucket_name object_name
            acl bucket_domain).2.2 = Except.ok s
      ∨ (AmazonS3.upload_from_url self g p url bucket_name object_name
            acl bucket_domain).2.2 = Except.ok s) :
    (bucket_domain ≠ "" → s = "https://" ++ bucket_domain ++ "/" ++ object_name)
    ∧ (bucket_domain = "" →
        s = "https://" ++ bucket_name ++ ".s3.amazonaws.com/" ++ object_name) := by
  rcases h with h | h
  · unfold AmazonS3.upload_from_local_file at h
    cases u with
    | error e => simp at h
    | ok _ =>
      simp only [] at h
      split at h <;> rename_i hd <;>
        simp only [Except.ok.injEq] at h <;> subst h
      · exact ⟨fun _ => rfl, fun he => absurd he hd⟩
      · rw [not_not] at hd
        exact ⟨fun hne => absurd hd hne, fun _ => rfl⟩
  · unfold AmazonS3.upload_from_url requests_get at h
    cases g with
    | error e => simp at h
    | ok r =>
      simp only [] at h
      cases hrs : r.raise_for_status with
      | error e => rw [hrs] at h; simp at h
      | ok _ =>
        rw [hrs] at h
        cases p with
        | error e => simp at h
        | ok _ =>
          simp only [] at h
          split at h <;> rename_i hd <;>
            simp only [Except.ok.injEq] at h <;> subst h
          · exact ⟨fun _ => rfl, fun he => absurd he hd⟩
          · rw [not_not] at hd
            exact ⟨fun hne => absurd hd hne, fun _ => rfl⟩

/-- C1 witness: concrete successful uploads at both an empty and a
non-empty bucket_domain produce the claimed URLs. -/
theorem c1_public_url_shape_witness :
    (((AmazonS3.upload_from_local_file (AmazonS3.init "id" "secret") (Except.ok ())
        "/tmp/x.png" "mybucket" "images/x.png" "public-read" "").2.2
      = Except.ok "https://mybucket.s3.amazonaws.com/images/x.png")
    ∧ ("https://mybucket.s3.amazonaws.com/images/x.png"
        = "https://" ++ "mybucket" ++ ".s3.amazonaws.com/" ++ "images/x.png"))
    ∧ (((AmazonS3.upload_from_local_file (AmazonS3.init "id" "secret") (Except.ok ())
        "/tmp/x.png" "mybucket" "images/x.png" "public-read" "cdn.example.com").2.2
      = Except.ok "https://cdn.example.com/images/x.png")
    ∧ ("https://cdn.example.com/images/x.png"
        = "https://" ++ "cdn.example.com" ++ "/" ++ "images/x.png")) :=
  ⟨⟨by rfl,
    (c1_public_url_shape (AmazonS3.init "id" "secret") (Except.ok ())
      (Except.error "") (Except.error "") "/tmp/x.png" "" "mybucket" "images/x.png"
      "public-read" "" "https://mybucket.s3.amazonaws.com/images/x.png"
      (Or.inl (by rfl))).2 rfl⟩,
   ⟨by rfl,
    (c1_public_url_shape (AmazonS3.init "id" "secret") (Except.ok ())
      (Except.error "") (Except.error "") "/tmp/x.png" "" "mybucket" "images/x.png"
      "public-read" "cdn.example.com" "https://cdn.example.com/images/x.png"
      (Or.inl (by rfl))).1 (by decide)⟩⟩

/-- Helper: upload_from_url when the fetch itself fails. -/
theorem upload_from_url_fetch_error (self : AmazonS3) (e : String)
    (p : Except String Unit) (url bucket_name object_name acl bucket_domain : String) :
    AmazonS3.upload_from_url self (Except.error e) p url bucket_name object_name
        acl bucket_domain
      = (self, [], Except.error (S3Error.fetchError e)) := rfl

/-- Helper: upload_from_url when the fetch returns an error status. -/
theorem upload_from_url_status_error (self : AmazonS3) (r : HttpResponse)
    (p : Except String Unit) (url bucket_name object_name acl bucket_domain : String)
    (h : 400 ≤ r.status ∧ r.status < 600) :
    AmazonS3.upload_from_url self (Except.ok r) p url bucket_name object_name
        acl bucket_domain
      = (self, [], Except.error (S3Error.httpError r.status)) := by
  have hrs : r.raise_for_status = Except.error (S3Error.httpError r.status) := by
    unfold HttpResponse.raise_for_status
    rw [if_pos h]
  unfold AmazonS3.upload_from_url requests_get
  simp [hrs]

/-- Helper: upload_from_url when the fetch succeeds with a non-error
status, so the put_object call is issued. -/
theorem upload_from_url_put (self : AmazonS3) (r : HttpResponse)
    (p : Except String Unit) (url bucket_name object_name acl bucket_domain : String)
    (h : ¬ (400 ≤ r.status ∧ r.status < 600)) :
    AmazonS3.upload_from_url self (Except.ok r) p url bucket_name object_name
        acl bucket_domain
      = (self, [SdkCall.putObject bucket_name object_name r.content acl],
          match p with
          | Except.error e => Except.error (S3Error.sdkError e)
          | Except.ok _ =>
            Except.ok (if bucket_domain ≠ "" then
                "https://" ++ bucket_domain ++ "/" ++ object_name
              else
                "https://" ++ bucket_name ++ ".s3.amazonaws.com/" ++ object_name)) := by
  have hrs : r.raise_for_status = Except.ok () := by
    unfold HttpResponse.raise_for_status
    rw [if_neg h]
  unfold AmazonS3.upload_from_url requests_get
  simp [hrs]

/-- C2: _check_acl raises the ValueError naming the invalid value and
pointing at the AWS canned-ACL documentation exactly when acl is non-empty
and outside the fixed eight-value set, and succeeds as a no-op exactly when
acl is empty or a member of the set. -/
theorem c2_check_acl_validation (self : AmazonS3) (acl : String) :
    ((AmazonS3._check_acl self acl).2
        = Except.error (S3Error.valueError
            ("Invalid ACL: " ++ acl ++
             ". Please check the https://docs.aws.amazon.com/AmazonS3/latest/userguide/acl-overview.html#canned-acl for valid ACLs."))
      ↔ (acl ≠ "" ∧ acl ∉ AmazonS3.VALID_ACL))
    ∧ ((AmazonS3._check_acl self acl).2 = Except.ok ()
      ↔ (acl = "" ∨ acl ∈ AmazonS3.VALID_ACL)) := by
  by_cases h : acl ≠ "" ∧ acl ∉ AmazonS3.VALID_ACL
  · unfold AmazonS3._check_acl
    rw [if_pos h]
    refine ⟨⟨fun _ => h, fun _ => rfl⟩, ⟨fun hc => by simp at hc, fun hc => ?_⟩⟩
    rcases hc with hc | hc
    · exact absurd hc h.1
    · exact absurd hc h.2
  · unfold AmazonS3._check_acl
    rw [if_neg h]
    push_neg at h
    refine ⟨⟨fun hc => by simp at hc, fun hc => absurd (h hc.1) hc.2⟩,
            ⟨fun _ => ?_, fun _ => rfl⟩⟩
    by_cases he : acl = ""
    · exact Or.inl he
    · exact Or.inr (h he)

/-- C2 witness: the theorem instantiated at a value outside the set, a
value inside the set, and the empty string. -/
theorem c2_check_acl_validation_witness :
    ((AmazonS3._check_acl (AmazonS3.init "id" "secret") "bogus").2
        = Except.error (S3Error.valueError
            ("Invalid ACL: " ++ "bogus" ++
             ". Please check the https://docs.aws.amazon.com/AmazonS3/latest/userguide/acl-overview.html#canned-acl for valid ACLs.")))
    ∧ ((AmazonS3._check_acl (AmazonS3.init "id" "secret") "public-read").2 = Except.ok ())
    ∧ ((AmazonS3._check_acl (AmazonS3.init "id" "secret") "").2 = Except.ok ()) :=
  ⟨(c2_check_acl_validation (AmazonS3.init "id" "secret") "bogus").1.mpr
      ⟨by decide, by decide⟩,
   (c2_check_acl_validation (AmazonS3.init "id" "secret") "public-read").2.mpr
      (Or.inr (by decide)),
   (c2_check_acl_validation (AmazonS3.init "id" "secret") "").2.mpr
      (Or.inl rfl)⟩

/-- C3: when the HTTP GET comes back with an error status (4xx or 5xx,
exactly the statuses for which raise_for_status raises), upload_from_url
surfaces the HTTPError and issues no SDK call at all: put_object is never
attempted. -/
theorem c3_http_error_no_put (self : AmazonS3) (p : Except String Unit)
    (url bucket_name object_name acl bucket_domain : String) (r : HttpResponse)
    (h : 400 ≤ r.status ∧ r.status < 600) :
    (AmazonS3.upload_from_url self (Except.ok r) p url bucket_name object_name
        acl bucket_domain).2
      = ([], Except.error (S3Error.httpError r.status)) := by
  rw [upload_from_url_status_error self r p url bucket_name object_name acl bucket_domain h]

/-- C3 witness: a 404 response fails with the HTTPError and produces an
empty SDK-call trace even though the put outcome would have succeeded. -/
theorem c3_http_error_no_put_witness :
    ((400 ≤ 404 ∧ 404 < 600) : Prop)
    ∧ (AmazonS3.upload_from_url (AmazonS3.init "id" "secret")
        (Except.ok ⟨404, [1, 2]⟩) (Except.ok ()) "http://e/x" "mybucket" "k"
        "public-read" "").2
      = ([], Except.error (S3Error.httpError 404)) :=
  ⟨by decide,
   c3_http_error_no_put (AmazonS3.init "id" "secret") (Except.ok ())
     "http://e/x" "mybucket" "k" "public-read" "" ⟨404, [1, 2]⟩ (by decide)⟩

/-- C4: when the HTTP GET succeeds (status not 4xx or 5xx), the body handed
to the put_object call is exactly the byte content of the response, with
nothing else in the call trace. -/
theorem c4_put_body_verbatim (self : AmazonS3) (p : Except String Unit)
    (url bucket_name object_name acl bucket_domain : String) (r : HttpResponse)
    (h : ¬ (400 ≤ r.status ∧ r.status < 600)) :
    (AmazonS3.upload_from_url self (Except.ok r) p url bucket_name object_name
        acl bucket_domain).2.1
      = [SdkCall.putObject bucket_name object_name r.content acl] := by
  rw [upload_from_url_put self r p url bucket_name object_name acl bucket_domain h]

/-- C4 witness: a 200 response with body bytes 7, 8, 9 is put verbatim. -/
theorem c4_put_body_verbatim_witness :
    (¬ (400 ≤ 200 ∧ 200 < 600))
    ∧ (AmazonS3.upload_from_url (AmazonS3.init "id" "secret")
        (Except.ok ⟨200, [7, 8, 9]⟩) (Except.ok ()) "http://e/x" "mybucket" "k"
        "public-read" "").2.1
      = [SdkCall.putObject "mybucket" "k" [7, 8, 9] "public-read"] :=
  ⟨by decide,
   c4_put_body_verbatim (AmazonS3.init "id" "secret") (Except.ok ())
     "http://e/x" "mybucket" "k" "public-read" "" ⟨200, [7, 8, 9]⟩ (by decide)⟩

/-- C5: neither upload operation (nor the constructor) ever invokes
_check_acl: for every acl value, including ones outside VALID_ACL, the
upload operations never produce the ValueError of the ACL check, they
forward acl verbatim in the SDK call they issue, and construction always
succeeds. -/
theorem c5_uploads_skip_acl_check (self : AmazonS3)
    (u : Except String Unit) (g : Except String HttpResponse) (p : Except String Unit)
    (file_path url bucket_name object_name acl bucket_domain m : String)
    (earg : Option (Option String)) :
    ((AmazonS3.upload_from_local_file self u file_path bucket_name object_name
        acl bucket_domain).2.1
      = [SdkCall.uploadFile file_path bucket_name object_name acl])
    ∧ ((AmazonS3.upload_from_local_file self u file_path bucket_name object_name
        acl bucket_domain).2.2 ≠ Except.error (S3Error.valueError m))
    ∧ ((AmazonS3.upload_from_url self g p url bucket_name object_name
        acl bucket_domain).2.2 ≠ Except.error (S3Error.valueError m))
    ∧ ((AmazonS3.upload_from_url self g p url bucket_name object_name
          acl bucket_domain).2.1 = []
       ∨ ∃ body, (AmazonS3.upload_from_url self g p url bucket_name object_name
          acl bucket_domain).2.1
            = [SdkCall.putObject bucket_name object_name body acl])
    ∧ (AmazonS3.construct self.aws_access_key_id self.aws_secret_access_key earg
        ≠ Except.error (S3Error.valueError m)) := by
  refine ⟨rfl, ?_, ?_, ?_, by simp [AmazonS3.construct]⟩
  · unfold AmazonS3.upload_from_local_file
    cases u <;> simp
  · cases g with
    | error e =>
      rw [upload_from_url_fetch_error]
      simp
    | ok r =>
      by_cases h : 400 ≤ r.status ∧ r.status < 600
      · rw [upload_from_url_status_error self r p url bucket_name object_name
            acl bucket_domain h]
        simp
      · rw [upload_from_url_put self r p url bucket_name object_name
            acl bucket_domain h]
        cases p <;> simp
  · cases g with
    | error e =>
      rw [upload_from_url_fetch_error]
      exact Or.inl rfl
    | ok r =>
      by_cases h : 400 ≤ r.status ∧ r.status < 600
      · rw [upload_from_url_status_error self r p url bucket_name object_name
            acl bucket_domain h]
        exact Or.inl rfl
      · rw [upload_from_url_put self r p url bucket_name object_name
            acl bucket_domain h]
        exact Or.inr ⟨r.content, rfl⟩

/-- C5 witness: with the invalid acl value bogus, both uploads forward it
verbatim, no ValueError is produced, and construction succeeds. -/
theorem c5_uploads_skip_acl_check_witness :
    ((AmazonS3.upload_from_local_file (AmazonS3.init "id" "secret") (Except.ok ())
        "/tmp/x.png" "mybucket" "k" "bogus" "").2.1
      = [SdkCall.uploadFile "/tmp/x.png" "mybucket" "k" "bogus"])
    ∧ ((AmazonS3.upload_from_local_file (AmazonS3.init "id" "secret") (Except.ok ())
        "/tmp/x.png" "mybucket" "k" "bogus" "").2.2
      ≠ Except.error (S3Error.valueError "Invalid ACL: bogus"))
    ∧ ((AmazonS3.upload_from_url (AmazonS3.init "id" "secret")
        (Except.ok ⟨200, [7]⟩) (Except.ok ()) "http://e/x" "mybucket" "k"
        "bogus" "").2.2
      ≠ Except.error (S3Error.valueError "Invalid ACL: bogus"))
    ∧ ((AmazonS3.upload_from_url (AmazonS3.init "id" "secret")
          (Except.ok ⟨200, [7]⟩) (Except.ok ()) "http://e/x" "mybucket" "k"
          "bogus" "").2.1 = []
       ∨ ∃ body, (AmazonS3.upload_from_url (AmazonS3.init "id" "secret")
          (Except.ok ⟨200, [7]⟩) (Except.ok ()) "http://e/x" "mybucket" "k"
          "bogus" "").2.1
            = [SdkCall.putObject "mybucket" "k" body "bogus"])
    ∧ (AmazonS3.construct "id" "secret" none
        ≠ Except.error (S3Error.valueError "Invalid ACL: bogus")) :=
  c5_uploads_skip_acl_check (AmazonS3.init "id" "secret") (Except.ok ())
    (Except.ok ⟨200, [7]⟩) (Except.ok ()) "/tmp/x.png" "http://e/x" "mybucket"
    "k" "bogus" "" "Invalid ACL: bogus" none

/-- C6: constructing CloudflareR2 without an endpoint argument fails with a
TypeError because the parameter is required, while constructing AmazonS3
without it succeeds with the endpoint defaulting to none. -/
theorem c6_endpoint_required (aws_access_key_id aws_secret_access_key : String) :
    (∃ msg, CloudflareR2.construct aws_access_key_id aws_secret_access_key none
        = Except.error (S3Error.typeError msg))
    ∧ (AmazonS3.construct aws_access_key_id aws_secret_access_key none
        = Except.ok (AmazonS3.mk aws_access_key_id aws_secret_access_key none)) :=
  ⟨⟨"CloudflareR2.__init__ missing 1 required positional argument: endpoint_url",
    rfl⟩, rfl⟩

/-- C6 witness: the theorem instantiated at concrete credentials. -/
theorem c6_endpoint_required_witness :
    (∃ msg, CloudflareR2.construct "id" "secret" none
        = Except.error (S3Error.typeError msg))
    ∧ (AmazonS3.construct "id" "secret" none
        = Except.ok (AmazonS3.mk "id" "secret" none)) :=
  c6_endpoint_required "id" "secret"

/-- C7: a CloudflareR2 client built from given credentials and endpoint
carries exactly the state of an AmazonS3 client built from the same
credentials and endpoint, and every operation (both uploads and the ACL
check) returns the same SDK calls, the same result, and the same state on
both clients. -/
theorem c7_r2_behaves_as_s3 (aws_access_key_id aws_secret_access_key endpoint_url : String)
    (u : Except String Unit) (g : Except String HttpResponse) (p : Except String Unit)
    (file_path url bucket_name object_name acl bucket_domain : String) :
    ((CloudflareR2.init aws_access_key_id aws_secret_access_key endpoint_url).toAmazonS3
      = AmazonS3.init aws_access_key_id aws_secret_access_key (some endpoint_url))
    ∧ ((CloudflareR2.upload_from_local_file
          (CloudflareR2.init aws_access_key_id aws_secret_access_key endpoint_url)
          u file_path bucket_name object_name acl bucket_domain).2
      = (AmazonS3.upload_from_local_file
          (AmazonS3.init aws_access_key_id aws_secret_access_key (some endpoint_url))
          u file_path bucket_name object_name acl bucket_domain).2)
    ∧ ((CloudflareR2.upload_from_local_file
          (CloudflareR2.init aws_access_key_id aws_secret_access_key endpoint_url)
          u file_path bucket_name object_name acl bucket_domain).1.toAmazonS3
      = (AmazonS3.upload_from_local_file
          (AmazonS3.init aws_access_key_id aws_secret_access_key (some endpoint_url))
          u file_path bucket_name object_name acl bucket_domain).1)
    ∧ ((CloudflareR2.upload_from_url
          (CloudflareR2.init aws_access_key_id aws_secret_access_key endpoint_url)
          g p url bucket_name object_name acl bucket_domain).2
      = (AmazonS3.upload_from_url
          (AmazonS3.init aws_access_key_id aws_secret_access_key (some endpoint_url))
          g p url bucket_name object_name acl bucket_domain).2)
    ∧ ((CloudflareR2.upload_from_url
          (CloudflareR2.init aws_access_key_id aws_secret_access_key endpoint_url)
          g p url bucket_name object_name acl bucket_domain).1.toAmazonS3
      = (AmazonS3.upload_from_url
          (AmazonS3.init aws_access_key_id aws_secret_access_key (some endpoint_url))
          g p url bucket_name object_name acl bucket_domain).1)
    ∧ ((CloudflareR2._check_acl
          (CloudflareR2.init aws_access_key_id aws_secret_access_key endpoint_url) acl).2
      = (AmazonS3._check_acl
          (AmazonS3.init aws_access_key_id aws_secret_access_key (some endpoint_url)) acl).2)
    ∧ ((CloudflareR2._check_acl
          (CloudflareR2.init aws_access_key_id aws_secret_access_key endpoint_url) acl).1.toAmazonS3
      = (AmazonS3._check_acl
          (AmazonS3.init aws_access_key_id aws_secret_access_key (some endpoint_url)) acl).1) :=
  ⟨rfl, rfl, rfl, rfl, rfl, rfl, rfl⟩

/-- C8: failures propagate unmodified and an operation fails exactly when
an underlying call fails: a failed upload_file surfaces as that same error;
a successful upload_file yields a URL; a failed fetch surfaces as that same
error; an error status surfaces as the HTTPError; with a good status a
failed put_object surfaces as that same error and a successful one yields a
URL. -/
theorem c8_errors_propagate_unmodified (self : AmazonS3)
    (m file_path url bucket_name object_name acl bucket_domain : String)
    (r : HttpResponse) (p : Except String Unit) :
    ((AmazonS3.upload_from_local_file self (Except.error m) file_path bucket_name
        object_name acl bucket_domain).2.2 = Except.error (S3Error.sdkError m))
    ∧ (∃ s, (AmazonS3.upload_from_local_file self (Except.ok ()) file_path bucket_name
        object_name acl bucket_domain).2.2 = Except.ok s)
    ∧ ((AmazonS3.upload_from_url self (Except.error m) p url bucket_name
        object_name acl bucket_domain).2.2 = Except.error (S3Error.fetchError m))
    ∧ (400 ≤ r.status ∧ r.status < 600 →
        (AmazonS3.upload_from_url self (Except.ok r) p url bucket_name
          object_name acl bucket_domain).2.2 = Except.error (S3Error.httpError r.status))
    ∧ (¬ (400 ≤ r.status ∧ r.status < 600) →
        (AmazonS3.upload_from_url self (Except.ok r) (Except.error m) url bucket_name
          object_name acl bucket_domain).2.2 = Except.error (S3Error.sdkError m))
    ∧ (¬ (400 ≤ r.status ∧ r.status < 600) →
        ∃ s, (AmazonS3.upload_from_url self (Except.ok r) (Except.ok ()) url bucket_name
          object_name acl bucket_domain).2.2 = Except.ok s) := by
  refine ⟨rfl, ⟨_, rfl⟩, ?_, ?_, ?_, ?_⟩
  · rw [upload_from_url_fetch_error]
  · intro h
    rw [upload_from_url_status_error self r p url bucket_name object_name
        acl bucket_domain h]
  · intro h
    rw [upload_from_url_put self r (Except.error m) url bucket_name object_name
        acl bucket_domain h]
  · intro h
    rw [upload_from_url_put self r (Except.ok ()) url bucket_name object_name
        acl bucket_domain h]
    exact ⟨_, rfl⟩

/-- C8 witness: concrete instances of each propagation case, the
status-dependent ones taken at status 200 (and 404 via a second use of the
theorem). -/
theorem c8_errors_propagate_unmodified_witness :
    ((AmazonS3.upload_from_local_file (AmazonS3.init "id" "secret")
        (Except.error "boom") "/tmp/x" "b" "k" "public-read" "").2.2
      = Except.error (S3Error.sdkError "boom"))
    ∧ ((AmazonS3.upload_from_url (AmazonS3.init "id" "secret")
        (Except.ok ⟨404, []⟩) (Except.ok ()) "http://e" "b" "k"
        "public-read" "").2.2
      = Except.error (S3Error.httpError 404))
    ∧ ((AmazonS3.upload_from_url (AmazonS3.init "id" "secret")
        (Except.ok ⟨200, []⟩) (Except.error "boom") "http://e" "b" "k"
        "public-read" "").2.2
      = Except.error (S3Error.sdkError "boom")) :=
  ⟨(c8_errors_propagate_unmodified (AmazonS3.init "id" "secret") "boom" "/tmp/x"
      "http://e" "b" "k" "public-read" "" ⟨200, []⟩ (Except.ok ())).1,
   (c8_errors_propagate_unmodified (AmazonS3.init "id" "secret") "boom" "/tmp/x"
      "http://e" "b" "k" "public-read" "" ⟨404, []⟩ (Except.ok ())).2.2.2.1
      (by decide),
   (c8_errors_propagate_unmodified (AmazonS3.init "id" "secret") "boom" "/tmp/x"
      "http://e" "b" "k" "public-read" "" ⟨200, []⟩ (Except.ok ())).2.2.2.2.1
      (by decide)⟩

/-- C9: the credential fields stored at construction are left unchanged by
every operation, whatever the outcome of the underlying calls: the state
returned by upload_from_local_file, upload_from_url and _check_acl carries
the same aws_access_key_id and aws_secret_access_key as the input state. -/
theorem c9_credentials_immutable (self : AmazonS3)
    (u : Except String Unit) (g : Except String HttpResponse) (p : Except String Unit)
    (file_path url bucket_name object_name acl bucket_domain : String) :
    ((AmazonS3.upload_from_local_file self u file_path bucket_name object_name
        acl bucket_domain).1.aws_access_key_id = self.aws_access_key_id
    ∧ (AmazonS3.upload_from_local_file self u file_path bucket_name object_name
        acl bucket_domain).1.aws_secret_access_key = self.aws_secret_access_key)
    ∧ ((AmazonS3.upload_from_url self g p url bucket_name object_name
        acl bucket_domain).1.aws_access_key_id = self.aws_access_key_id
    ∧ (AmazonS3.upload_from_url self g p url bucket_name object_name
        acl bucket_domain).1.aws_secret_access_key = self.aws_secret_access_key)
    ∧ ((AmazonS3._check_acl self acl).1.aws_access_key_id = self.aws_access_key_id
    ∧ (AmazonS3._check_acl self acl).1.aws_secret_access_key = self.aws_secret_access_key) :=
  ⟨⟨rfl, rfl⟩, ⟨rfl, rfl⟩, ⟨rfl, rfl⟩⟩

/-- C10: omitting acl is the same as passing public-read and omitting
bucket_domain is the same as passing the empty string: the defaulted calls
are equal, as whole results, to the fully explicit calls. -/
theorem c10_default_arguments (self : AmazonS3)
    (u : Except String Unit) (g : Except String HttpResponse) (p : Except String Unit)
    (file_path url bucket_name object_name : String) :
    (AmazonS3.upload_from_local_file self u file_path bucket_name object_name
      = AmazonS3.upload_from_local_file self u file_path bucket_name object_name
          "public-read" "")
    ∧ (AmazonS3.upload_from_url self g p url bucket_name object_name
      = AmazonS3.upload_from_url self g p url bucket_name object_name
          "public-read" "") :=
  ⟨rfl, rfl⟩
